import Mathlib

/-!
Shallow embedding of `src/discord_bot.py` (a command-dispatch and menu layer
on top of discord.py) together with proofs settling the claims C1..C10 about
its specification.

Conventions of the embedding:
* Python strings are Lean `String`, Python ints are Lean `Int` (page numbers,
  selection choices), non-negative counts are `Nat`.
* A coroutine's observable effects (sending, editing, deleting messages and
  invoking a registered handler) are reified as a list of `Act` values; a
  Python exception escaping the modelled code is an `Except.error` carrying a
  `PyErr` naming the exception class.
* Dictionaries keyed by possibly-`None` names are association lists over
  `Option String`.
-/

/-- Python exception classes that the modelled code can raise. -/
inductive PyErr where
  /-- TypeError: wrong number of call arguments, or unpacking `None`. -/
  | typeError
  /-- KeyError from a failed dict lookup. -/
  | keyError
  /-- IndexError from a failed list index. -/
  | indexError
  /-- SyntaxError raised by the string "Invaild footer detected.". -/
  | invalidFooter
  /-- UnboundLocalError: a local name read before any assignment. -/
  | unboundLocal
  /-- SyntaxError raised by "That menu does not allow selection.". -/
  | selectionRefused
  deriving DecidableEq, Repr

/-- One parameter name/value pair as delivered to a handler. -/
inductive PyVal where
  | s (v : String)
  | i (v : Int)
  deriving DecidableEq, Repr

/-- Embedded-message field: discord.py add_field name (a Python int here) and
value. -/
structure EmbedField where
  name : Int
  value : String
  deriving DecidableEq, Repr

/-- Rendered message container, modelling the discord `Embed` values this
code constructs and reads: a title, the footer text, the labelled fields of a
selectable page and the description of a non-selectable one. -/
structure Embed where
  title : String
  footerText : String
  fields : List EmbedField
  description : Option String
  deriving DecidableEq, Repr

/-- Observable side effects of the modelled coroutines. -/
inductive Act where
  /-- send_message to a channel. -/
  | sendChannel (channel : Nat) (text : String)
  /-- send_message privately to the invoking user. -/
  | sendUser (user : Nat) (text : String)
  /-- send_message of an embed to a channel. -/
  | sendEmbed (channel : Nat) (e : Embed)
  /-- edit_message of an existing message to a new embed. -/
  | editMessage (msgId : Nat) (e : Embed)
  /-- delete_message of one message. -/
  | deleteMessage (msgId : Nat)
  /-- delete_messages of several messages at once. -/
  | deleteMessages (msgIds : List Nat)
  /-- invocation of the registered command handler with parsed arguments. -/
  | invoke (cmd : String) (args : List (String × PyVal))
  /-- invocation of a menu's selection handler with the chosen option. -/
  | invokeHandler (handler : String) (selection : String)
  deriving DecidableEq, Repr

/-- Structural test that `p` is a leading segment of `s` (character lists),
modelling Python `str.startswith`. -/
def listStarts : List Char → List Char → Bool
  | [], _ => true
  | _ :: _, [] => false
  | p :: ps, c :: cs => p = c && listStarts ps cs

/-- Python `s.startswith(p)` on Lean strings. -/
def strStarts (s p : String) : Bool :=
  listStarts p.data s.data

/-- Python `s.lstrip(chars)`: remove every leading character that occurs in
`chars`. Note this strips a character SET, not the literal string `chars`. -/
def lstrip (s chars : String) : String :=
  ⟨s.data.dropWhile (fun c => chars.data.contains c)⟩

/-- Accumulator pass of `tokenize`: split on spaces, dropping empty pieces. -/
def splitWsAux : List Char → List Char → List String
  | [], acc => if acc.isEmpty then [] else [⟨acc.reverse⟩]
  | c :: cs, acc =>
    if c = ' ' then
      if acc.isEmpty then splitWsAux cs []
      else (⟨acc.reverse⟩ : String) :: splitWsAux cs []
    else splitWsAux cs (c :: acc)

/-- Models `shlex.split` as used by `process_message`, restricted to inputs
that contain no quote, backslash, tab or newline characters: on such inputs
the POSIX shell lexer is exactly whitespace splitting. Every concrete message
content in this development is of that restricted form. -/
def tokenize (s : String) : List String :=
  splitWsAux s.data []

/-- Python `template.format(name=..., mention=...)` for templates whose only
replacement fields are `{name}` and `{mention}` (the only fields
`check_permissions` supplies). -/
def formatNameMention : List Char → String → String → List Char
  | [], _, _ => []
  | '{' :: 'n' :: 'a' :: 'm' :: 'e' :: '}' :: rest, n, m =>
      n.data ++ formatNameMention rest n m
  | '{' :: 'm' :: 'e' :: 'n' :: 't' :: 'i' :: 'o' :: 'n' :: '}' :: rest, n, m =>
      m.data ++ formatNameMention rest n m
  | c :: rest, n, m => c :: formatNameMention rest n m

/-- String-level wrapper for `formatNameMention`. -/
def formatCheckFailed (template n m : String) : String :=
  ⟨formatNameMention template.data n m⟩

/-- Character class of the first group of `Bot.__state_regex`, `[1-9]`. -/
def isPageDigit (c : Char) : Bool :=
  '1' ≤ c && c ≤ '9'

/-- Character class of the second group of `Bot.__state_regex`, `[a-zA-Z_]`. -/
def isNameChar (c : Char) : Bool :=
  ('a' ≤ c && c ≤ 'z') || ('A' ≤ c && c ≤ 'Z') || c = '_'

/-- Numeric value of one decimal digit character. -/
def digitVal (c : Char) : Nat :=
  c.toNat - '0'.toNat

/-- Python `int(s)` on a string of decimal digits. -/
def digitsVal (cs : List Char) : Nat :=
  cs.foldl (fun a c => 10 * a + digitVal c) 0

/-- Match a literal character sequence at the head of the input, returning
the rest on success. -/
def stripLit : List Char → List Char → Option (List Char)
  | [], cs => some cs
  | _ :: _, [] => none
  | l :: ls, c :: cs => if c = l then stripLit ls cs else none

/-- Match one-or-more characters of class `p` (a greedy `[..]+` group).
Because in the state regex each such group is followed by a character outside
the class, the greedy match is the maximal run and no backtracking into the
group can succeed, so maximal munch is exactly the regex semantics. -/
def takeClass1 (p : Char → Bool) (cs : List Char) : Option (List Char × List Char) :=
  match cs.takeWhile p with
  | [] => none
  | ts => some (ts, cs.dropWhile p)

/-- Character list of the literal "Page: ". -/
def pageLit : List Char := "Page: ".data

/-- Character list of the literal " List: ". -/
def listLit : List Char := " List: ".data

/-- Character list of the literal " Selection: ". -/
def selLit : List Char := " Selection: ".data

/-- Models `Bot.__state_regex.fullmatch` on a footer, i.e. the pattern
"Page: ([1-9]+) List: ([a-zA-Z_]+) Selection: (True|False)" anchored at both
ends, returning `int(group 1)`, group 2 and the truth of group 3. -/
def stateFullmatchAux (cs : List Char) : Option (Nat × String × Bool) :=
  (stripLit pageLit cs).bind fun cs1 =>
  (takeClass1 isPageDigit cs1).bind fun ds =>
  (stripLit listLit ds.2).bind fun cs3 =>
  (takeClass1 isNameChar cs3).bind fun nm =>
  (stripLit selLit nm.2).bind fun cs5 =>
  if cs5 = "True".data then some (digitsVal ds.1, ⟨nm.1⟩, true)
  else if cs5 = "False".data then some (digitsVal ds.1, ⟨nm.1⟩, false)
  else none

/-- Footer decoding: `Bot.__state_regex.fullmatch` on a string. -/
def stateFullmatch (s : String) : Option (Nat × String × Bool) :=
  stateFullmatchAux s.data

/-- Footer encoding, as `Bot.__create_embed_menu` writes it: the f-string
"Page: {page} List: {title} Selection: {allow_selection}" (a Python bool
formats as "True"/"False"). -/
def stateString (page : Int) (title : String) (allow_selection : Bool) : String :=
  "Page: " ++ toString page ++ " List: " ++ title ++ " Selection: " ++
    (if allow_selection then "True" else "False")

/-- One entry of `Bot.__menus`: the option list and, for selectable menus,
the handler stored under the "handler" key (named here by an identifier so
its invocation is observable). A display-only menu has no handler key. -/
structure MenuEntry where
  options : List String
  handler : Option String
  deriving DecidableEq, Repr

/-- The `Bot.__menus` dictionary. Its keys are the `name` values passed at
registration time, which may be Python `None`. -/
abbrev MenuMap : Type := List (Option String × MenuEntry)

/-- One message of a channel's history as `Bot.__find_menu` inspects it. -/
structure HistMsg where
  id : Nat
  /-- Truth of `message.author == self.user`. -/
  fromBot : Bool
  embeds : List Embed
  deriving DecidableEq, Repr

/-- The process-wide page length `Bot.__items_per_page`. -/
def itemsPerPage : Nat := 5

/-- Python list indexing `xs[i]` with an int index: negative indices count
from the end, and an index out of range raises IndexError. -/
def pyIndex (xs : List String) (i : Int) : Except PyErr String :=
  let j := if i < 0 then i + xs.length else i
  if j < 0 then .error .indexError
  else
    match xs.get? j.toNat with
    | some v => .ok v
    | none => .error .indexError

/-- Selection-mode body of the rendering loop of `Bot.__create_embed_menu`:
one labelled field per index of the page, label `index + 1`, value
`options[index]`; the first failing index raises IndexError. -/
def buildFields (options : List String) : List Int → Except PyErr (List EmbedField)
  | [] => .ok []
  | i :: rest =>
    match pyIndex options i with
    | .error e => .error e
    | .ok v =>
      match buildFields options rest with
      | .error e => .error e
      | .ok tail => .ok (⟨i + 1, v⟩ :: tail)

/-- Display-mode body of the rendering loop of `Bot.__create_embed_menu`:
the page's options concatenated, each followed by a newline. -/
def buildDescr (options : List String) : List Int → Except PyErr String
  | [] => .ok ""
  | i :: rest =>
    match pyIndex options i with
    | .error e => .error e
    | .ok v =>
      match buildDescr options rest with
      | .error e => .error e
      | .ok tail => .ok (v ++ "\n" ++ tail)

/-- Models `Bot.__create_embed_menu(title, page, allow_selection)`:
`start = (page - 1) * items_per_page`; the embed title is
"{self.user.name} menu: {title}" and the footer is the encoded state string;
the looked-up menu's options at indices `start .. start + items_per_page - 1`
become fields (selection) or the description (no selection). A missing menu
key raises KeyError; an index past the options raises IndexError. -/
def create_embed_menu (menus : MenuMap) (botName title : String) (page : Int)
    (allow_selection : Bool) : Except PyErr Embed :=
  let start := (page - 1) * (itemsPerPage : Int)
  let embedTitle := botName ++ " menu: " ++ title
  let stateStr := stateString page title allow_selection
  match menus.lookup (some title) with
  | none => .error .keyError
  | some entry =>
    let idxs := (List.range itemsPerPage).map (fun k => start + (k : Int))
    if allow_selection then
      match buildFields entry.options idxs with
      | .error e => .error e
      | .ok fs =>
          .ok { title := embedTitle, footerText := stateStr, fields := fs,
                description := none }
    else
      match buildDescr entry.options idxs with
      | .error e => .error e
      | .ok d =>
          .ok { title := embedTitle, footerText := stateStr, fields := [],
                description := some d }

/-- Scan loop of `Bot.__find_menu` over the (already length-limited) history,
most recent first. Non-bot messages and bot messages without exactly one
embed continue the loop. For a bot message with exactly one embed the source
reaches a `return (message, page, list, allow_selection)` that sits OUTSIDE
the title check: when the title does start with "{self.user.name} menu:" the
footer is decoded (a non-matching footer raises SyntaxError) and the tuple is
returned, but when the title does not start with that text none of the three
locals is bound and the return raises UnboundLocalError. Exhausting the loop
returns Python `None`, modelled as `none`. -/
def find_menu_scan (botName : String) :
    List HistMsg → Except PyErr (Option (HistMsg × Nat × String × Bool))
  | [] => .ok none
  | m :: rest =>
    if m.fromBot then
      match m.embeds with
      | [e] =>
        if strStarts e.title (botName ++ " menu:") then
          match stateFullmatch e.footerText with
          | some (page, listName, sel) => .ok (some (m, page, listName, sel))
          | none => .error .invalidFooter
        else .error .unboundLocal
      | _ => find_menu_scan botName rest
    else find_menu_scan botName rest

/-- Models `Bot.__find_menu(message)`: scan backward over at most 50 history
messages before the triggering message (`history` is most-recent-first). -/
def find_menu (botName : String) (history : List HistMsg) :
    Except PyErr (Option (HistMsg × Nat × String × Bool)) :=
  find_menu_scan botName (history.take 50)

/-- Models `Bot.page(message, number_of_pages)`: reconstruct state (unpacking
the `None` of an exhausted scan raises TypeError), compute
`next_page = page + number_of_pages` with no bounds clamping, re-render the
located menu message in place and delete the triggering message. -/
def page_op (menus : MenuMap) (botName : String) (history : List HistMsg)
    (triggerId : Nat) (number_of_pages : Int) : Except PyErr (List Act) :=
  match find_menu botName history with
  | .error e => .error e
  | .ok none => .error .typeError
  | .ok (some (menuMsg, page, listName, allow_selection)) =>
    let nextPage := (page : Int) + number_of_pages
    match create_embed_menu menus botName listName nextPage allow_selection with
    | .error e => .error e
    | .ok newEmbed => .ok [.editMessage menuMsg.id newEmbed, .deleteMessage triggerId]

/-- Models `Bot.next(message)`. -/
def next_op (menus : MenuMap) (botName : String) (history : List HistMsg)
    (triggerId : Nat) : Except PyErr (List Act) :=
  page_op menus botName history triggerId 1

/-- Models `Bot.back(message)`. -/
def back_op (menus : MenuMap) (botName : String) (history : List HistMsg)
    (triggerId : Nat) : Except PyErr (List Act) :=
  page_op menus botName history triggerId (-1)

/-- Models `Bot.select(message, choice)`: reconstruct state; a
selection-disabled menu raises SyntaxError; then the guard compares `choice`
against `len(list)` where `list` is the decoded menu NAME, a string - so the
bound is the length of the name, not the number of options. Inside the guard
`self.__menus[list]["options"][choice]` is read, the handler is awaited and
both messages are deleted; outside the guard the coroutine falls through and
does nothing. -/
def select_op (menus : MenuMap) (botName : String) (history : List HistMsg)
    (triggerId : Nat) (choice : Int) : Except PyErr (List Act) :=
  match find_menu botName history with
  | .error e => .error e
  | .ok none => .error .typeError
  | .ok (some (menuMsg, _page, listName, allow_selection)) =>
    if !allow_selection then .error .selectionRefused
    else if 0 ≤ choice ∧ choice < (listName.length : Int) then
      match menus.lookup (some listName) with
      | none => .error .keyError
      | some entry =>
        match pyIndex entry.options choice with
        | .error e => .error e
        | .ok selection =>
          match entry.handler with
          | none => .error .keyError
          | some h => .ok [.invokeHandler h selection, .deleteMessages [triggerId, menuMsg.id]]
    else .ok []

/-- Models `Bot.dismiss(message)`: reconstruct state and delete both the menu
message and the triggering message. -/
def dismiss_op (botName : String) (history : List HistMsg)
    (triggerId : Nat) : Except PyErr (List Act) :=
  match find_menu botName history with
  | .error e => .error e
  | .ok none => .error .typeError
  | .ok (some (menuMsg, _, _, _)) => .ok [.deleteMessages [menuMsg.id, triggerId]]

/-- Models the `activate_menu` closure created by
`Bot.__register_select_menu`: render page 1 of the menu looked up under
`identifier` with selection allowed, send it as a new message and delete the
triggering message. -/
def activate_menu (menus : MenuMap) (botName identifier : String)
    (channel triggerId : Nat) : Except PyErr (List Act) :=
  match create_embed_menu menus botName identifier 1 true with
  | .error e => .error e
  | .ok e => .ok [.sendEmbed channel e, .deleteMessage triggerId]

/-- Registration state touched by `Bot.menu_command`: the `__menus` dict and,
for the `commands` dict, the association of each activation command name to
the identifier its closure renders. -/
structure MenuReg where
  menus : MenuMap
  commands : List (String × String)

/-- Models `Bot.__register_select_menu(menu_options, name)` applied to a
decorated function named `funcName`: `identifier` is the explicit `name` if
given, else the function's own name; the subparser and the `commands` entry
are registered under `identifier`, but the menu data is stored under the RAW
`name` - `self.__menus[name] = ...` - which is `None` when no explicit name
was given. -/
def register_select_menu (r : MenuReg) (name : Option String)
    (menu_options : List String) (funcName : String) : MenuReg :=
  let identifier := match name with
    | none => funcName
    | some n => n
  { menus := (name, ⟨menu_options, some funcName⟩) :: r.menus,
    commands := (identifier, identifier) :: r.commands }

/-- Attributes a command callable may carry, set by the decorator-style
configuration calls: `owner_only` sets `bot_owner = True`,
`permissions_required` sets `permissions_required` and `check_failed`.
An absent Python attribute is `none`. -/
structure CmdAttrs where
  bot_owner : Option Bool := none
  permissions_required : Option (List String) := none
  check_failed : Option String := none
  deriving DecidableEq, Repr

/-- The invoking message as the dispatch and check code reads it. -/
structure InMsg where
  /-- Truth of `message.author == self.user`. -/
  fromBot : Bool
  /-- The author's id, the target of private error replies. -/
  authorId : Nat
  /-- The author's display name (`nick` when present, else `name`). -/
  authorName : String
  /-- The author's `mention` string. -/
  authorMention : String
  /-- The permission flags set on `message.author.server_permissions`. -/
  heldPerms : List String
  /-- Truth of `message.author == discord.AppInfo.owner`. -/
  isOwner : Bool
  channel : Nat
  content : String
  deriving DecidableEq, Repr

/-- The default `check_failed` text `Bot.default_message` used by
`Bot.admin`. -/
def default_message : String := "{mention} that command requires admin privilges."

/-- Models `Bot.check_permissions(command, message)`. The whole body sits in
a `try` whose `except AttributeError` returns True, so a command without the
`permissions_required` attribute - or with it but without `check_failed` -
passes. With a non-empty permission list, the first flag the author's
effective permissions lack formats `check_failed` with the author's name and
mention, sends it to the channel and fails the check. -/
def check_permissions (cmd : CmdAttrs) (msg : InMsg) : Bool × List Act :=
  match cmd.permissions_required with
  | none => (true, [])
  | some perms =>
    if perms.isEmpty then (true, [])
    else
      match perms.find? (fun p => !(msg.heldPerms.contains p)) with
      | none => (true, [])
      | some _ =>
        match cmd.check_failed with
        | none => (true, [])
        | some t =>
          (false, [.sendChannel msg.channel
                     (formatCheckFailed t msg.authorName msg.authorMention)])

/-- Fixed refusal text of `Bot.check_owner`. -/
def owner_refusal (msg : InMsg) : String :=
  msg.authorMention ++ " that command is only accesible to the owner of the bot."

/-- Models `Bot.check_owner(command, message)`: a command without the
`bot_owner` attribute passes (AttributeError caught); with it set, an author
equal to the application owner passes and any other author is sent the fixed
refusal and fails. A present-but-falsy `bot_owner` falls off the end of the
function, returning Python `None`, which the caller treats as failure. -/
def check_owner (cmd : CmdAttrs) (msg : InMsg) : Bool × List Act :=
  match cmd.bot_owner with
  | none => (true, [])
  | some b =>
    if b then
      if msg.isOwner then (true, [])
      else (false, [.sendChannel msg.channel (owner_refusal msg)])
    else (false, [])

/-- The ordered check list `Bot.permission_checks`. -/
def permission_checks : List (CmdAttrs → InMsg → Bool × List Act) :=
  [check_permissions, check_owner]

/-- The check loop of `Bot.process_message`: every check in
`permission_checks` is awaited unconditionally - there is no break - and
`passed` becomes False as soon as any check fails. The effects of all
executed checks accumulate in order. -/
def run_checks (cmd : CmdAttrs) (msg : InMsg) : Bool × List Act :=
  permission_checks.foldl
    (fun acc chk =>
      let r := chk cmd msg
      (acc.1 && r.1, acc.2 ++ r.2))
    (true, [])

/-- A declared parameter's annotation as `Bot.__parse_keyword_postional`
inspects it. -/
inductive Ann where
  /-- Annotated `discord.Message` (the reserved context parameter). -/
  | messageTy
  /-- Annotated with the literal `True` or `False`. -/
  | boolLit (b : Bool)
  /-- Annotated with a dict carrying a "const" entry. -/
  | dictConst (v : String)
  /-- Annotated `int`. -/
  | intType
  /-- No annotation (or any other annotation). -/
  | emptyAnn
  deriving DecidableEq, Repr

/-- A declared parameter's kind, as in `inspect.Parameter.kind`. -/
inductive ParamKind where
  | positionalOnly
  | positionalOrKeyword
  | keywordOnly
  | varPositional
  | varKeyword
  deriving DecidableEq, Repr

/-- The argparse action chosen for one parameter. -/
inductive ArgAction where
  | store
  | storeTrue
  | storeFalse
  | storeConst
  deriving DecidableEq, Repr

/-- The argparse value type chosen for one parameter. -/
inductive ArgTy where
  | str
  | int
  deriving DecidableEq, Repr

/-- One grammar entry registered with the command's subparser. -/
structure ArgEntry where
  name : String
  action : ArgAction
  const : Option String
  ty : ArgTy
  deriving DecidableEq, Repr

/-- Number of following value tokens an argparse action consumes: a plain
`store` takes exactly one token, while the switch and constant actions take
none. -/
def tokensConsumed : ArgAction → Nat
  | .store => 1
  | .storeTrue => 0
  | .storeFalse => 0
  | .storeConst => 0

/-- Models `Bot.__parse_keyword_postional(parameter, name, sub_parser)`. The
source first binds the LOCAL name `type` to `str`; the subsequent tests
`type(parameter.annotation) is bool` and `type(parameter.annotation) is dict`
therefore call `str(...)` and compare the resulting string object to a class,
which is always false - so the `store_true`/`store_false` and `store_const`
branches can never be taken (the False sub-branch additionally reads the
misspelt attribute `annontation`, and would raise if it were reachable).
Only the `is int` test, which uses the annotation object itself, can fire. -/
def parse_keyword_postional (nm : String) (ann : Ann) : ArgEntry :=
  let action := ArgAction.store
  let const : Option String := none
  let condBool := false
  let condDict := false
  if condBool then
    { name := nm, action := ArgAction.storeTrue, const := const, ty := ArgTy.str }
  else if condDict then
    { name := nm,
      action := ArgAction.storeConst,
      const := match ann with
        | .dictConst v => some v
        | _ => const,
      ty := ArgTy.str }
  else if ann = Ann.intType then
    { name := nm, action := action, const := const, ty := ArgTy.int }
  else
    { name := nm, action := action, const := const, ty := ArgTy.str }

/-- Models the parameter loop of `Bot.__parse_parameters`: parameters
annotated `discord.Message` are skipped, a positional-only parameter raises
SyntaxError, positional-or-keyword and keyword-only parameters each yield one
grammar entry in declaration order, and variadic parameters are ignored. -/
def parse_parameters : List (String × ParamKind × Ann) → Except String (List ArgEntry)
  | [] => .ok []
  | (nm, kind, ann) :: rest =>
    if ann = Ann.messageTy then parse_parameters rest
    else
      match kind with
      | .positionalOnly => .error "Parameters can not be postional only."
      | .positionalOrKeyword =>
        match parse_parameters rest with
        | .error e => .error e
        | .ok es => .ok (parse_keyword_postional nm ann :: es)
      | .keywordOnly =>
        match parse_parameters rest with
        | .error e => .error e
        | .ok es => .ok (parse_keyword_postional nm ann :: es)
      | _ => parse_parameters rest

/-- A registered command as dispatch uses it: its attributes and the grammar
of its subparser. -/
structure RegCmd where
  attrs : CmdAttrs
  grammar : List ArgEntry
  deriving DecidableEq, Repr

/-- Argparse parsing of the tokens after the command name against the
subparser's entries, all of which are positionals (the source passes bare
names to `add_argument`). A `store` entry consumes one token (converted by
`int()` under `ArgTy.int`); the nargs-0 actions bind without consuming.
Missing tokens, a failed int conversion and leftover tokens are argparse
errors, which `BotParser.error` turns into a SyntaxError caught by
`process_message` and sent privately to the invoker. -/
def parseArgTokens : List ArgEntry → List String → Except String (List (String × PyVal))
  | [], [] => .ok []
  | [], _ :: _ => .error "error: unrecognized arguments"
  | e :: es, toks =>
    match e.action with
    | .store =>
      match toks with
      | [] => .error "error: the following arguments are required"
      | t :: rest =>
        match e.ty with
        | .str =>
          match parseArgTokens es rest with
          | .error err => .error err
          | .ok args => .ok ((e.name, PyVal.s t) :: args)
        | .int =>
          match t.toInt? with
          | none => .error "error: invalid int value"
          | some n =>
            match parseArgTokens es rest with
            | .error err => .error err
            | .ok args => .ok ((e.name, PyVal.i n) :: args)
    | _ =>
      match parseArgTokens es toks with
      | .error err => .error err
      | .ok args => .ok ((e.name, PyVal.s (e.const.getD "")) :: args)

/-- Models `Bot.process_message(message)`: messages from the bot itself are
ignored; messages not starting with the prefix are ignored; otherwise the
prefix characters are stripped (`lstrip` removes a character set), the rest
is shell-tokenized, the first token is resolved as a subcommand and the rest
parsed against its grammar - a parse failure is caught and sent privately to
the author - then the permission checks run and, only if all passed, the
stored callable is invoked once with the parsed arguments (the `command`
field having been deleted). The private error texts are abstracted to the
argparse error labels. -/
def process_message (pfx : String) (commands : List (String × RegCmd))
    (msg : InMsg) : List Act :=
  if msg.fromBot then []
  else if strStarts msg.content pfx then
    match tokenize (lstrip msg.content pfx) with
    | [] => []
    | cmdName :: argToks =>
      match commands.lookup cmdName with
      | none => [.sendUser msg.authorId "error: invalid choice"]
      | some cmd =>
        match parseArgTokens cmd.grammar argToks with
        | .error err => [.sendUser msg.authorId err]
        | .ok args =>
          let (passed, acts) := run_checks cmd.attrs msg
          if passed then acts ++ [.invoke cmdName args] else acts
  else []

/-- Number of parameters `Bot.process_message` declares besides `self`. -/
def process_message_param_count : Nat := 1

/-- Models `Bot.on_message(message)`. Its body is
`self.process_message(self, message)`: the bound method receives TWO
positional arguments where its signature declares one, so Python raises
TypeError before any dispatch work happens; and even with matching arity the
call produces a coroutine that is never awaited, so `process_message` would
still never run. -/
def on_message (pfx : String) (commands : List (String × RegCmd))
    (msg : InMsg) : Except PyErr (List Act) :=
  if 2 = process_message_param_count then .ok (process_message pfx commands msg)
  else .error .typeError

/-- Identity of the two callables involved in `Bot.command` registration:
the decorated original and the `wrapped_command` closure built around it. -/
inductive Callable where
  | original
  | wrapped
  deriving DecidableEq, Repr

/-- The mutable state threaded through the three `mirrorAttr` calls: the
attribute dictionaries of the original and of the wrapper, and the current
value of the local variable `wrapped_command`. -/
structure AttrState where
  originalAttrs : CmdAttrs
  wrappedAttrs : CmdAttrs
  cur : Callable
  deriving DecidableEq, Repr

/-- Apply a `setattr` to whichever callable the local `wrapped_command`
currently denotes (it is the `dest` argument of each `mirrorAttr` call). -/
def setOn (s : AttrState) (f : CmdAttrs → CmdAttrs) : AttrState :=
  match s.cur with
  | .original => { s with originalAttrs := f s.originalAttrs }
  | .wrapped => { s with wrappedAttrs := f s.wrappedAttrs }

/-- Models one call `wrapped_command = mirrorAttr(command, wrapped_command,
attr)` from `Bot.command`. The source reads the attribute off the ORIGINAL
command; on success it copies it onto `dest` (the current value of
`wrapped_command`) and returns `source` - the original - so the local
`wrapped_command` is REBOUND to the original callable. On AttributeError it
returns the closed-over `wrapped_command`, leaving the local unchanged. -/
def mirrorAttr (get : CmdAttrs → Option α) (set : α → CmdAttrs → CmdAttrs)
    (s : AttrState) : AttrState :=
  match get s.originalAttrs with
  | some v => { setOn s (set v) with cur := Callable.original }
  | none => s

/-- Models the registration tail of `Bot.command(command, name)`: the wrapper
starts with none of the three attributes (functools.wraps copies only
name/doc metadata), the three `mirrorAttr` calls run in source order, and the
final value of the local `wrapped_command` is what `self.commands[name]`
receives. -/
def register_command (orig : CmdAttrs) : AttrState :=
  let s0 : AttrState := ⟨orig, {}, Callable.wrapped⟩
  let s1 := mirrorAttr (fun a => a.bot_owner)
    (fun v a => { a with bot_owner := some v }) s0
  let s2 := mirrorAttr (fun a => a.check_failed)
    (fun v a => { a with check_failed := some v }) s1
  mirrorAttr (fun a => a.permissions_required)
    (fun v a => { a with permissions_required := some v }) s2

/-- Proof-side characterization of the decimal expansion produced by
`Nat.repr`: most significant digit first. -/
def natDigits (n : Nat) : List Char :=
  if _h : n < 10 then [Nat.digitChar n]
  else natDigits (n / 10) ++ [Nat.digitChar (n % 10)]
termination_by n
decreasing_by exact Nat.div_lt_self (by omega) (by omega)

deriving instance DecidableEq for Except

/-- Grammar the registration code derives for an example handler
`greet(message: discord.Message, name)`. -/
def greetGrammar : List ArgEntry :=
  [⟨"name", ArgAction.store, none, ArgTy.str⟩]

/-- The example command table containing only `greet`. -/
def demoCommands : List (String × RegCmd) :=
  [("greet", ⟨{}, greetGrammar⟩)]

/-- A valid inbound command message from an ordinary (non-bot) author. -/
def demoMsg : InMsg :=
  ⟨false, 9, "alice", "@alice", [], false, 3, "!greet Alice"⟩

/-- A command carrying both restrictions, as produced by stacking
`owner_only` and `admin` on one handler. -/
def adminOwnerCmd : CmdAttrs :=
  { bot_owner := some true, permissions_required := some ["administrator"],
    check_failed := some default_message }

/-- An invoker that holds no permission flags and is not the owner. -/
def plebMsg : InMsg :=
  ⟨false, 9, "alice", "@alice", [], false, 3, "!clear"⟩

/-- A bot-authored single-embed message whose title is NOT a menu title. -/
def msgOther : HistMsg :=
  ⟨20, true, [⟨"Bot poll results", "no state here", [], none⟩]⟩

/-- A correctly rendered (bare) menu message for the menu "fruits". -/
def msgMenu : HistMsg :=
  ⟨19, true, [⟨"Bot menu: fruits", "Page: 1 List: fruits Selection: True", [], none⟩]⟩

/-- A five-option selectable menu registered under the two-character name
"ab". -/
def abMenus : MenuMap :=
  [(some "ab", ⟨["v", "w", "x", "y", "z"], some "abHandler"⟩)]

/-- The rendered selection-enabled menu message for "ab". -/
def abHist : List HistMsg :=
  [⟨10, true, [⟨"Bot menu: ab", "Page: 1 List: ab Selection: True", [], none⟩]⟩]

/-- The same menu rendered with selection disabled in the footer. -/
def abHistNoSel : List HistMsg :=
  [⟨12, true, [⟨"Bot menu: ab", "Page: 1 List: ab Selection: False", [], none⟩]⟩]

/-- A history containing only a non-bot message: no qualifying menu. -/
def noMenuHist : List HistMsg :=
  [⟨7, false, [⟨"user text", "", [], none⟩]⟩]

/-- The menu registry of the §8 scenario: "fruits" with five options,
selection enabled. -/
def fruitsMenus : MenuMap :=
  [(some "fruits", ⟨["apple", "banana", "cherry", "date", "egg"], some "fruitsHandler"⟩)]

/-- Page 1 of the fruits menu exactly as `__create_embed_menu` renders it. -/
def fruitsPage1 : Embed :=
  ⟨"Bot menu: fruits", "Page: 1 List: fruits Selection: True",
   [⟨1, "apple"⟩, ⟨2, "banana"⟩, ⟨3, "cherry"⟩, ⟨4, "date"⟩, ⟨5, "egg"⟩], none⟩

/-- History after activating the fruits menu. -/
def fruitsHist : List HistMsg :=
  [⟨30, true, [fruitsPage1]⟩]

/-- C1: for an inbound message with the configured prefix, a registered
command name, valid arguments and a non-bot author, the claim says delivery
through the `on_message` entry point invokes the handler exactly once. The
dispatch pipeline `process_message` would indeed invoke it exactly once, but
`on_message` itself calls `self.process_message(self, message)` - two
arguments to a one-parameter bound method, and no await - so it raises
TypeError and the handler is never invoked. -/
theorem c1_on_message_never_dispatches :
    parse_parameters [("message", ParamKind.positionalOrKeyword, Ann.messageTy),
                      ("name", ParamKind.positionalOrKeyword, Ann.emptyAnn)]
        = .ok greetGrammar
    ∧ process_message "!" demoCommands demoMsg
        = [Act.invoke "greet" [("name", PyVal.s "Alice")]]
    ∧ on_message "!" demoCommands demoMsg = .error PyErr.typeError := by
  refine ⟨by decide, by decide, by decide⟩

/-- C2 counterexample: the state (page 10, menu "a", selection on) satisfies
the claim's hypotheses (page >= 1, name matching the name class), but its
encoded footer "Page: 10 List: a Selection: True" contains the digit 0,
which the decoding group `[1-9]+` refuses, so the fullmatch fails instead of
returning the state. -/
theorem c2_counterexample_page_ten :
    stateFullmatch (stateString 10 "a" true) = none := by decide

/-- C3: the claim says bot-authored single-embed messages whose title does
not start with "{bot} menu:" are skipped. In the source the
`return (message, page, list, allow_selection)` sits outside the title
check, so the first bot-authored single-embed message always ends the scan:
with a matching title it is decoded and returned, but with any other title
the three locals are unbound and the return raises UnboundLocalError - the
genuine menu message right behind it is never reached. -/
theorem c3_misindented_return_faults :
    find_menu "Bot" [msgOther, msgMenu] = .error PyErr.unboundLocal
    ∧ find_menu "Bot" [msgMenu] = .ok (some (msgMenu, 1, "fruits", true)) := by
  refine ⟨by decide, by decide⟩

/-- C4: the claim says registration stores the metadata-carrying wrapper and
that this wrapper is what dispatch invokes. For a handler carrying metadata
(here `bot_owner`), `mirrorAttr` copies the attribute onto the wrapper but
then returns `source`, rebinding the local `wrapped_command` to the ORIGINAL
handler; so `self.commands[name]` receives the original, and the wrapper
(together with the freshly copied metadata) is discarded. -/
theorem c4_metadata_rebinds_to_original :
    (register_command { bot_owner := some true }).cur = Callable.original
    ∧ (register_command { bot_owner := some true }).wrappedAttrs.bot_owner = some true
    ∧ Callable.original ≠ Callable.wrapped := by
  refine ⟨by decide, by decide, by decide⟩

/-- C5 counterexample: for a command marked both owner-only and
administrator-required and an invoker failing the permission-flag check, the
check loop has no break, so the owner check still runs and sends its own
refusal: two denial notifications reach the channel, not at most one. -/
theorem c5_counterexample_two_denials :
    run_checks adminOwnerCmd plebMsg =
      (false,
       [Act.sendChannel 3 "@alice that command requires admin privilges.",
        Act.sendChannel 3 "@alice that command is only accesible to the owner of the bot."]) := by
  decide

/-- C6: the claim says a choice with `0 <= choice < number of options` on a
selection-enabled menu invokes the handler and deletes both messages. The
source instead guards with `0 <= choice < len(list)` where `list` is the
decoded menu NAME: on the five-option menu named "ab", choice 2 (a valid
option index) falls outside `len("ab") = 2` and the coroutine falls through
doing nothing, while choice 1 still works; a selection-disabled menu does
raise the structural error the claim describes. -/
theorem c6_select_bounded_by_name_length :
    ((abMenus.lookup (some "ab")).map (fun e => e.options.length) = some 5)
    ∧ select_op abMenus "Bot" abHist 11 2 = .ok []
    ∧ select_op abMenus "Bot" abHist 11 1
        = .ok [Act.invokeHandler "abHandler" "w", Act.deleteMessages [11, 10]]
    ∧ select_op abMenus "Bot" abHistNoSel 13 1 = .error PyErr.selectionRefused := by
  refine ⟨by decide, by decide, by decide, by decide⟩

/-- C7: the claim says an exhausted scan is a no-op menu-not-found case that
raises no fault. When no qualifying message exists in the window,
`__find_menu` falls off its loop returning `None`, and every navigation
command then unpacks that `None` into a four-tuple, raising TypeError - a
fault, for `next`, `back`, `select` and a repeated `dismiss` alike. -/
theorem c7_menu_not_found_faults :
    next_op abMenus "Bot" [] 1 = .error PyErr.typeError
    ∧ back_op abMenus "Bot" noMenuHist 2 = .error PyErr.typeError
    ∧ select_op abMenus "Bot" [] 3 0 = .error PyErr.typeError
    ∧ dismiss_op "Bot" [] 4 = .error PyErr.typeError := by
  refine ⟨by decide, by decide, by decide, by decide⟩

/-- C8: the claim says a parameter annotated with the boolean True/False
sentinel becomes a zero-argument switch. Because the local name `type` is
bound to `str` before the tests, `type(annotation) is bool` is always false,
so such parameters fall through to the default `store` action, which
consumes one following value token - not a zero-argument switch. -/
theorem c8_flag_params_consume_a_value :
    parse_keyword_postional "verbose" (Ann.boolLit true)
        = { name := "verbose", action := ArgAction.store, const := none, ty := ArgTy.str }
    ∧ parse_keyword_postional "quiet" (Ann.boolLit false)
        = { name := "quiet", action := ArgAction.store, const := none, ty := ArgTy.str }
    ∧ tokensConsumed ArgAction.store = 1
    ∧ tokensConsumed ArgAction.storeTrue = 0 := by
  refine ⟨by decide, by decide, by decide, by decide⟩

/-- C9 counterexample: on the five-option fruits menu with page size 5,
invoking `next` from page 1 computes page 2, whose start index 5 has no
backing option; rendering raises IndexError, so the menu message is never
edited and no footer "Page: 2 List: fruits Selection: True" is produced. -/
theorem c9_counterexample_next_faults :
    next_op fruitsMenus "Bot" fruitsHist 31 = .error PyErr.indexError := by decide

/-- C9 amended: activating the fruits menu renders page 1 with one field per
option and footer "Page: 1 List: fruits Selection: True", and invoking
`next` then fails with an out-of-range IndexError while rendering page 2
instead of editing the message to an empty page. -/
theorem c9_next_page_out_of_range :
    create_embed_menu fruitsMenus "Bot" "fruits" 1 true = .ok fruitsPage1
    ∧ activate_menu fruitsMenus "Bot" "fruits" 40 41
        = .ok [Act.sendEmbed 40 fruitsPage1, Act.deleteMessage 41]
    ∧ page_op fruitsMenus "Bot" fruitsHist 31 1 = .error PyErr.indexError := by
  refine ⟨by decide, by decide, by decide⟩

/-- C5 amended: when the permission-flag check fails and reports its denial,
the loop in `process_message` still runs the owner check (there is no
break), which for a non-owner invoker sends its own refusal; the handler is
not invoked (`passed` is False), but two denial notifications are sent. -/
theorem c5_owner_check_runs_after_denial (cmd : CmdAttrs) (msg : InMsg) (a : Act)
    (h1 : check_permissions cmd msg = (false, [a]))
    (h2 : cmd.bot_owner = some true)
    (h3 : msg.isOwner = false) :
    run_checks cmd msg =
      (false, [a, Act.sendChannel msg.channel (owner_refusal msg)]) := by
  simp [run_checks, permission_checks, h1, check_owner, h2, h3]

/-- Witness instantiating `c5_owner_check_runs_after_denial` at the
administrator-plus-owner-only command and a permissionless non-owner. -/
theorem c5_owner_check_runs_after_denial_witness :
    check_permissions adminOwnerCmd plebMsg
        = (false, [Act.sendChannel 3 "@alice that command requires admin privilges."])
    ∧ adminOwnerCmd.bot_owner = some true
    ∧ plebMsg.isOwner = false
    ∧ run_checks adminOwnerCmd plebMsg
        = (false, [Act.sendChannel 3 "@alice that command requires admin privilges.",
                   Act.sendChannel plebMsg.channel (owner_refusal plebMsg)]) :=
  ⟨by decide, rfl, rfl,
   c5_owner_check_runs_after_denial adminOwnerCmd plebMsg _ (by decide) rfl rfl⟩

/-- C10: registering a selectable menu through `menu_command` WITHOUT an
explicit name stores the option list and handler in `__menus` under the key
`None`, while the activation command is registered under the decorated
function's own name; activating it renders page 1 by looking `__menus` up
under that function name, finds no entry, and raises KeyError. -/
theorem c10_unnamed_menu_stored_under_none (r : MenuReg) (opts : List String)
    (funcName botName : String) (channel triggerId : Nat)
    (h : r.menus.lookup (some funcName) = none) :
    ((register_select_menu r none opts funcName).menus.lookup none
        = some ⟨opts, some funcName⟩)
    ∧ ((register_select_menu r none opts funcName).commands.lookup funcName
        = some funcName)
    ∧ activate_menu (register_select_menu r none opts funcName).menus botName
        funcName channel triggerId = .error PyErr.keyError := by
  refine ⟨?_, ?_, ?_⟩
  · simp [register_select_menu, List.lookup]
  · simp [register_select_menu, List.lookup]
  · simp [activate_menu, create_embed_menu, register_select_menu, List.lookup, h]

/-- Witness instantiating `c10_unnamed_menu_stored_under_none` on an empty
registry and a function named "mymenu". -/
theorem c10_unnamed_menu_stored_under_none_witness :
    (([] : MenuMap).lookup (some "mymenu") = none)
    ∧ (((register_select_menu ⟨[], []⟩ none ["a", "b", "c"] "mymenu").menus.lookup none
          = some ⟨["a", "b", "c"], some "mymenu"⟩)
       ∧ ((register_select_menu ⟨[], []⟩ none ["a", "b", "c"] "mymenu").commands.lookup "mymenu"
          = some "mymenu")
       ∧ activate_menu (register_select_menu ⟨[], []⟩ none ["a", "b", "c"] "mymenu").menus
           "Bot" "mymenu" 1 2 = .error PyErr.keyError) :=
  ⟨rfl, c10_unnamed_menu_stored_under_none ⟨[], []⟩ ["a", "b", "c"] "mymenu" "Bot" 1 2 rfl⟩

theorem natDigits_lt (n : Nat) (h : n < 10) : natDigits n = [Nat.digitChar n] := by
  rw [natDigits, dif_pos h]

theorem natDigits_ge (n : Nat) (h : ¬ n < 10) :
    natDigits n = natDigits (n / 10) ++ [Nat.digitChar (n % 10)] := by
  conv_lhs => rw [natDigits]
  rw [dif_neg h]

theorem toDigitsCore_natDigits :
    ∀ (fuel n : Nat) (ds : List Char), n < fuel →
      Nat.toDigitsCore 10 fuel n ds = natDigits n ++ ds := by
  intro fuel
  induction fuel with
  | zero => intro n ds h; omega
  | succ f ih =>
    intro n ds h
    by_cases h10 : n / 10 = 0
    · have hlt : n < 10 := by omega
      simp only [Nat.toDigitsCore, h10, if_pos]
      rw [natDigits_lt n hlt, Nat.mod_eq_of_lt hlt]
      rfl
    · simp only [Nat.toDigitsCore, h10, if_neg, if_false]
      rw [ih (n / 10) _ (by omega)]
      rw [natDigits_ge n (by omega)]
      simp [List.append_assoc]

theorem natRepr_data (n : Nat) : (Nat.repr n).data = natDigits n := by
  show ((Nat.toDigits 10 n).asString).data = natDigits n
  rw [Nat.toDigits, toDigitsCore_natDigits (n + 1) n [] (by omega)]
  simp [List.asString]

theorem natDigits_ne_nil (n : Nat) : natDigits n ≠ [] := by
  rw [natDigits]
  split <;> simp

theorem digitVal_digitChar (d : Nat) (h : d < 10) :
    digitVal (Nat.digitChar d) = d := by
  interval_cases d <;> decide

theorem digitsVal_append (xs : List Char) (c : Char) :
    digitsVal (xs ++ [c]) = 10 * digitsVal xs + digitVal c := by
  unfold digitsVal
  rw [List.foldl_append]
  rfl

theorem digitsVal_natDigits (n : Nat) : digitsVal (natDigits n) = n := by
  induction n using Nat.strong_induction_on with
  | _ n ih =>
    rw [natDigits]
    split
    · next h =>
      show digitsVal [Nat.digitChar n] = n
      unfold digitsVal
      simp [digitVal_digitChar n h]
    · next h =>
      rw [digitsVal_append, ih (n / 10) (by omega), digitVal_digitChar _ (by omega)]
      omega

theorem toString_intOfNat (p : Nat) : toString ((p : Nat) : Int) = Nat.repr p := rfl

theorem str_data_append (a b : String) : (a ++ b).data = a.data ++ b.data := rfl

theorem stripLit_append (ls cs : List Char) : stripLit ls (ls ++ cs) = some cs := by
  induction ls with
  | nil => rfl
  | cons l ls ih => simp [stripLit, ih]

theorem takeWhile_all_stop (p : Char → Bool) :
    ∀ (a : List Char) (h : Char) (t : List Char),
      (∀ c ∈ a, p c = true) → p h = false →
      List.takeWhile p (a ++ h :: t) = a := by
  intro a
  induction a with
  | nil => intro h t _ hh; simp [List.takeWhile, hh]
  | cons c a ih =>
    intro h t ha hh
    have hc : p c = true := ha c (by simp)
    simp only [List.cons_append, List.takeWhile_cons, hc, if_true]
    rw [ih h t (fun x hx => ha x (by simp [hx])) hh]

theorem dropWhile_all_stop (p : Char → Bool) :
    ∀ (a : List Char) (h : Char) (t : List Char),
      (∀ c ∈ a, p c = true) → p h = false →
      List.dropWhile p (a ++ h :: t) = h :: t := by
  intro a
  induction a with
  | nil => intro h t _ hh; simp [List.dropWhile, hh]
  | cons c a ih =>
    intro h t ha hh
    have hc : p c = true := ha c (by simp)
    simp only [List.cons_append, List.dropWhile_cons, hc, if_true]
    exact ih h t (fun x hx => ha x (by simp [hx])) hh

theorem takeClass1_exact (p : Char → Bool) (a : List Char) (h : Char) (t : List Char)
    (hne : a ≠ []) (ha : ∀ c ∈ a, p c = true) (hh : p h = false) :
    takeClass1 p (a ++ h :: t) = some (a, h :: t) := by
  unfold takeClass1
  rw [takeWhile_all_stop p a h t ha hh, dropWhile_all_stop p a h t ha hh]
  cases a with
  | nil => exact absurd rfl hne
  | cons c a => rfl

theorem stateFullmatchAux_exact (ds nmL : List Char) (sel : Bool)
    (hdne : ds ≠ []) (hd : ∀ c ∈ ds, isPageDigit c = true)
    (hnne : nmL ≠ []) (hn : ∀ c ∈ nmL, isNameChar c = true) :
    stateFullmatchAux (pageLit ++ (ds ++ (listLit ++ (nmL ++ (selLit ++
        (if sel then "True".data else "False".data))))))
      = some (digitsVal ds, ⟨nmL⟩, sel) := by
  generalize hbs : (if sel = true then "True".data else "False".data) = bs
  unfold stateFullmatchAux
  rw [stripLit_append]
  simp only [Option.some_bind]
  rw [show listLit ++ (nmL ++ (selLit ++ bs))
        = ' ' :: ("List: ".data ++ (nmL ++ (selLit ++ bs))) from rfl,
      takeClass1_exact isPageDigit ds ' ' _ hdne hd (by decide)]
  simp only [Option.some_bind]
  rw [show (' ' :: ("List: ".data ++ (nmL ++ (selLit ++ bs))))
        = listLit ++ (nmL ++ (selLit ++ bs)) from rfl,
      stripLit_append]
  simp only [Option.some_bind]
  rw [show selLit ++ bs = ' ' :: ("Selection: ".data ++ bs) from rfl,
      takeClass1_exact isNameChar nmL ' ' _ hnne hn (by decide)]
  simp only [Option.some_bind]
  rw [show (' ' :: ("Selection: ".data ++ bs)) = selLit ++ bs from rfl,
      stripLit_append]
  simp only [Option.some_bind]
  cases sel
  · simp only [if_false, Bool.false_eq_true] at hbs
    subst hbs
    rfl
  · simp only [if_true] at hbs
    subst hbs
    rfl

/-- C2 amended: for a page whose decimal numeral uses only the digits 1-9
(the restriction the `[1-9]+` group forces - page 10 is a counterexample to
the unrestricted claim), a non-empty menu name over `[a-zA-Z_]` and any
selection flag, decoding the encoded footer returns exactly the state. -/
theorem c2_roundtrip_digits_one_to_nine (p : Nat) (nm : String) (sel : Bool)
    (hpd : ∀ c ∈ (toString (p : Int)).data, isPageDigit c = true)
    (hne : nm.data ≠ [])
    (hnc : ∀ c ∈ nm.data, isNameChar c = true) :
    stateFullmatch (stateString (p : Int) nm sel) = some (p, nm, sel) := by
  have hdig : (toString ((p : Nat) : Int)).data = natDigits p := by
    rw [toString_intOfNat, natRepr_data]
  have hd' : ∀ c ∈ natDigits p, isPageDigit c = true := by
    rw [← hdig]
    exact hpd
  have hshape : (stateString (p : Int) nm sel).data
      = pageLit ++ (natDigits p ++ (listLit ++ (nm.data ++ (selLit ++
          (if sel then "True".data else "False".data))))) := by
    unfold stateString
    simp only [str_data_append, hdig]
    cases sel <;> simp [pageLit, listLit, selLit, List.append_assoc]
  unfold stateFullmatch
  rw [hshape, stateFullmatchAux_exact (natDigits p) nm.data sel
      (natDigits_ne_nil p) hd' hne hnc, digitsVal_natDigits]

/-- Witness instantiating `c2_roundtrip_digits_one_to_nine` at page 12 and
menu name "fruits". -/
theorem c2_roundtrip_digits_one_to_nine_witness :
    (∀ c ∈ (toString ((12 : Nat) : Int)).data, isPageDigit c = true)
    ∧ (("fruits" : String).data ≠ [])
    ∧ (∀ c ∈ ("fruits" : String).data, isNameChar c = true)
    ∧ stateFullmatch (stateString ((12 : Nat) : Int) "fruits" true)
        = some (12, "fruits", true) :=
  ⟨by decide, by decide, by decide,
   c2_roundtrip_digits_one_to_nine 12 "fruits" true (by decide) (by decide) (by decide)⟩
